import Mathlib

/-!
Verification of the voicify VSCode plugin's text-injection subsystem
(`src/main.go`): window inspection (`Window.GetFocusedWindow`), clipboard
transport (`Clipboard.CopyToClipboard`, `Clipboard.PasteWithReturn`),
session-type classification (`isX11`) and the plugin action
(`Action.Execute`).

The Go code is shallowly embedded as pure Lean functions over an explicit
environment record `Env` that fixes the outcomes of every ambient
interaction the code performs (the value of `runtime.GOOS`, the
`XDG_SESSION_TYPE` variable, `exec.LookPath` resolution, and the result of
each external process invocation).  Every function additionally returns the
list of observable side effects it performed, in order, as `Event`s, so
that claims about "no key synthesis happened" or "paste before Enter with a
delay in between" become statements about the returned trace.
-/

/-- Observable side effects performed by the embedded code, in program
order.  `runCmd bin args stdinData` records an external process invocation
(`exec.Command(bin, args...).Run()`); `stdinData` is the payload source the
process's standard input was connected to (`none` when the Go code left
`cmd.Stdin` unset, in which case the child reads from the null device).
`pipeWrite payload outcome` records the worker goroutine's
`pipeWriter.Write([]byte(text))` call together with that call's outcome,
which the goroutine discards.  `keyTap` records a `robotgo.KeyTap` native
key-synthesis call and `sleepMs` a `time.Sleep`. -/
inductive Event where
  | lookPath (bin : String) (found : Bool)
  | runCmd (bin : String) (args : List String) (stdinData : Option String)
  | pipeWrite (payload : String) (outcome : Option String)
  | keyTap (key : String) (mods : List String)
  | sleepMs (n : Nat)
deriving DecidableEq, Repr

/-- Result of a call: normal return of a value, a Go `error` return
(errors are carried as their message string), or a runtime panic. -/
inductive Outcome (α : Type) where
  | ok (a : α)
  | err (e : String)
  | panicked (msg : String)
deriving DecidableEq, Repr

/-- The ambient environment the Go code reads: platform identity, the
session-type variable, binary resolution, and the outcome of each external
process the code may run.  Each field is the result the corresponding
interaction would yield during this call.  `Option String` fields are
`none` on success and `some msg` when the interaction fails with error
message `msg`. -/
structure Env where
  /-- Value of `runtime.GOOS`. -/
  goos : String
  /-- Value of the `XDG_SESSION_TYPE` environment variable (`""` when
  unset, matching `os.Getenv`). -/
  xdgSessionType : String
  /-- Whether `exec.LookPath("xclip")` resolves the binary. -/
  lookPathXclip : Bool
  /-- Outcome of `exec.Command("pbcopy").Run()` on the darwin path. -/
  pbcopyRun : Option String
  /-- Outcome of the worker goroutine's `pipeWriter.Write([]byte(text))`
  on the linux path (`some msg` for a failed or short write).  The source
  discards this value. -/
  workerWrite : Option String
  /-- Outcome of `exec.Command("xclip", "-selection", "clipboard").Run()`. -/
  xclipRun : Option String
  /-- Outcome of `exec.Command("xdotool", "key", "ctrl+v").Run()`. -/
  xdotoolPasteRun : Option String
  /-- Outcome of `exec.Command("xdotool", "key", "Return").Run()`. -/
  xdotoolReturnRun : Option String
  /-- Result of `exec.Command("xdotool", "getactivewindow").Output()`:
  the raw stdout on success, or the error. -/
  activeWindowQuery : Except String String
  /-- Result of `exec.Command("xdotool", "getwindowname", id).Output()`
  as a function of the queried window identifier `id`. -/
  windowNameQuery : String → Except String String

/-- The `Window` value entity (`type Window struct { Title string }`). -/
structure Window where
  Title : String
deriving DecidableEq, Repr

/-- Go panic message raised by calling `(*exec.Cmd).Run` on a nil
pointer. -/
def nilDerefMsg : String :=
  "runtime error: invalid memory address or nil pointer dereference"

/-- Model of Go's `strings.TrimSpace`: drop leading and trailing
whitespace characters.  (Go trims by Unicode's White_Space property,
Lean's `Char.isWhitespace` covers space, tab, carriage return and line
feed — the characters external tools actually emit around their output;
the claims under verification do not depend on the exotic remainder.) -/
def goTrim (s : String) : String :=
  String.mk
    (((s.data.dropWhile Char.isWhitespace).reverse.dropWhile
        Char.isWhitespace).reverse)

/-- Embedding of `Window.GetFocusedWindow`: two sequential `xdotool`
queries; either failure is returned to the caller unchanged, a success
yields a `Window` whose title is the trimmed second output.  The raw
window identifier is trimmed (`strings.TrimSpace`) before being passed to
the second query. -/
def getFocusedWindow (env : Env) : Except String Window × List Event :=
  match env.activeWindowQuery with
  | .error e => (.error e, [.runCmd "xdotool" ["getactivewindow"] none])
  | .ok rawID =>
    let windowID := goTrim rawID
    match env.windowNameQuery windowID with
    | .error e =>
      (.error e,
        [.runCmd "xdotool" ["getactivewindow"] none,
         .runCmd "xdotool" ["getwindowname", windowID] none])
    | .ok rawName =>
      (.ok ⟨goTrim rawName⟩,
        [.runCmd "xdotool" ["getactivewindow"] none,
         .runCmd "xdotool" ["getwindowname", windowID] none])

/-- Embedding of `Clipboard.CopyToClipboard`.  On `"darwin"` the code
builds `exec.Command("pbcopy")` and runs it without ever setting
`cmd.Stdin` (the `text` parameter is unused on this branch, so the child
reads the null device).  On `"linux"` it first resolves `xclip` via
`exec.LookPath`, failing fast with "xclip is not installed"; otherwise it
connects `cmd.Stdin` to an `io.Pipe` whose writer side is fed `text` by a
goroutine that discards the write's outcome, and returns `cmd.Run()`.
`cmd.Run()` blocks until the process has exited and the stdin copy is
finished, which is after the worker closed its end, so both the
`pipeWrite` and the `runCmd` event are in the trace when the call
returns.  On any other platform `cmd` remains nil and `cmd.Run()`
panics. -/
def copyToClipboard (env : Env) (text : String) : Outcome Unit × List Event :=
  if env.goos = "darwin" then
    match env.pbcopyRun with
    | none => (.ok (), [.runCmd "pbcopy" [] none])
    | some e => (.err e, [.runCmd "pbcopy" [] none])
  else if env.goos = "linux" then
    if env.lookPathXclip = false then
      (.err "xclip is not installed", [.lookPath "xclip" false])
    else
      -- The worker goroutine's write outcome (env.workerWrite) is recorded
      -- in the trace but, as in the source, never inspected: the call's
      -- result is cmd.Run()'s result alone.
      match env.xclipRun with
      | none =>
        (.ok (),
          [.lookPath "xclip" true,
           .pipeWrite text env.workerWrite,
           .runCmd "xclip" ["-selection", "clipboard"] (some text)])
      | some e =>
        (.err e,
          [.lookPath "xclip" true,
           .pipeWrite text env.workerWrite,
           .runCmd "xclip" ["-selection", "clipboard"] (some text)])
  else
    (.panicked nilDerefMsg, [])

/-- Model of Go's `strings.ToLower`: lower-case every character.
`Char.toLower` covers the ASCII range; this agrees with Go's Unicode
mapping on every comparison the code performs, because `'x'` (U+0078) is
the simple lowercase image only of `'X'` (U+0058) and digits have no
case, so the two mappings classify exactly the same strings as equal to
`"x11"`. -/
def goToLower (s : String) : String :=
  String.mk (s.data.map Char.toLower)

/-- Embedding of `isX11`: lower-case the session-type variable and compare
with `"x11"` (`strings.ToLower(session) == "x11"`). -/
def isX11 (session : String) : Bool :=
  goToLower session = "x11"

/-- Embedding of `Clipboard.PasteWithReturn`: copy to the clipboard,
aborting with the clipboard's error if it fails; then, on an X11 session,
two back-to-back `robotgo.KeyTap` calls; otherwise an `xdotool` paste
(failure wrapped as "failed to paste: ..."), a 50 ms sleep, and an
`xdotool` Return (failure wrapped as "failed to press enter: ..."). -/
def pasteWithReturn (env : Env) (text : String) : Outcome Unit × List Event :=
  match copyToClipboard env text with
  | (.err e, evs) => (.err e, evs)
  | (.panicked m, evs) => (.panicked m, evs)
  | (.ok _, evs) =>
    if isX11 env.xdgSessionType then
      (.ok (), evs ++ [.keyTap "v" ["ctrl"], .keyTap "enter" []])
    else
      match env.xdotoolPasteRun with
      | some e =>
        (.err ("failed to paste: " ++ e),
          evs ++ [.runCmd "xdotool" ["key", "ctrl+v"] none])
      | none =>
        match env.xdotoolReturnRun with
        | some e =>
          (.err ("failed to press enter: " ++ e),
            evs ++ [.runCmd "xdotool" ["key", "ctrl+v"] none,
                    .sleepMs 50,
                    .runCmd "xdotool" ["key", "Return"] none])
        | none =>
          (.ok (),
            evs ++ [.runCmd "xdotool" ["key", "ctrl+v"] none,
                    .sleepMs 50,
                    .runCmd "xdotool" ["key", "Return"] none])

/-- `leadsList a b` holds when `a` is a leading segment of `b`
(character-by-character equality of `b`'s first `a.length` elements). -/
def leadsList : List Char → List Char → Bool
  | [], _ => true
  | _ :: _, [] => false
  | a :: as, b :: bs => a = b && leadsList as bs

/-- `containsAt needle hay` scans every tail of `hay` for `needle` as a
leading segment, mirroring the byte scan of Go's `strings.Contains` (the
needle `"VSC"` is pure ASCII, so byte-level and character-level substring
occurrence coincide for valid UTF-8 titles). -/
def containsAt (needle : List Char) : List Char → Bool
  | [] => needle.isEmpty
  | c :: rest => leadsList needle (c :: rest) || containsAt needle rest

/-- The title predicate of `Action.Execute`:
`strings.Contains(focusedWindow.Title, "VSC")`. -/
def titleMatches (title : String) : Bool :=
  containsAt "VSC".toList title.toList

/-- Embedding of `Action.Execute`: query the focused window, propagating
its error; return success doing nothing further when the title does not
contain `"VSC"`; otherwise call `PasteWithReturn` and return nil
regardless of its error — the source discards the returned error (a Go
panic, however, would propagate). -/
def execute (env : Env) (transcription : String) : Outcome Unit × List Event :=
  match getFocusedWindow env with
  | (.error e, evs) => (.err e, evs)
  | (.ok w, evs) =>
    if titleMatches w.Title = false then
      (.ok (), evs)
    else
      match pasteWithReturn env transcription with
      | (.panicked m, evs2) => (.panicked m, evs ++ evs2)
      | (_, evs2) => (.ok (), evs ++ evs2)

/-- An event is a key-synthesis operation: a native `robotgo.KeyTap` or an
`xdotool key ...` invocation. -/
def isKeySynthesis : Event → Bool
  | .keyTap _ _ => true
  | .runCmd bin args _ => bin = "xdotool" && args.headI = "key"
  | _ => false

/-- An event is a sleep. -/
def isSleep : Event → Bool
  | .sleepMs _ => true
  | _ => false

/-- A fully successful environment; theorems override the fields they
exercise. -/
def baseEnv : Env where
  goos := "linux"
  xdgSessionType := "x11"
  lookPathXclip := true
  pbcopyRun := none
  workerWrite := none
  xclipRun := none
  xdotoolPasteRun := none
  xdotoolReturnRun := none
  activeWindowQuery := Except.ok "42\n"
  windowNameQuery := fun _ => Except.ok "main.go - VSCode"

theorem leadsList_iff (a b : List Char) :
    leadsList a b = true ↔ ∃ rest, b = a ++ rest := by
  induction a generalizing b with
  | nil => simp [leadsList]
  | cons x xs ih =>
    cases b with
    | nil => simp [leadsList]
    | cons y ys =>
      simp only [leadsList, Bool.and_eq_true, decide_eq_true_eq, ih,
        List.cons_append, List.cons.injEq]
      constructor
      · rintro ⟨rfl, rest, rfl⟩
        exact ⟨rest, rfl, rfl⟩
      · rintro ⟨rest, rfl, rfl⟩
        exact ⟨rfl, rest, rfl⟩

theorem containsAt_iff (needle hay : List Char) :
    containsAt needle hay = true ↔ ∃ pre post, hay = pre ++ needle ++ post := by
  induction hay with
  | nil =>
    simp only [containsAt, List.isEmpty_iff]
    constructor
    · rintro rfl
      exact ⟨[], [], rfl⟩
    · rintro ⟨pre, post, h⟩
      have h2 : (pre ++ needle) ++ post = [] := h.symm
      rcases List.append_eq_nil.mp h2 with ⟨h3, -⟩
      rcases List.append_eq_nil.mp h3 with ⟨-, h5⟩
      exact h5
  | cons c rest ih =>
    simp only [containsAt, Bool.or_eq_true, leadsList_iff, ih]
    constructor
    · rintro (⟨r, hr⟩ | ⟨pre, post, hp⟩)
      · exact ⟨[], r, by simpa using hr⟩
      · exact ⟨c :: pre, post, by simp [hp]⟩
    · rintro ⟨pre, post, hp⟩
      cases pre with
      | nil =>
        exact Or.inl ⟨post, by simpa using hp⟩
      | cons p ps =>
        simp only [List.cons_append, List.cons.injEq] at hp
        exact Or.inr ⟨ps, post, hp.2⟩

theorem copyToClipboard_trace_effects (env : Env) (text : String) :
    ∀ ev ∈ (copyToClipboard env text).2,
      isKeySynthesis ev = false ∧ isSleep ev = false := by
  intro ev hev
  unfold copyToClipboard at hev
  split at hev
  · split at hev <;>
      (simp only [List.mem_singleton] at hev; subst hev; exact ⟨rfl, rfl⟩)
  · split at hev
    · split at hev
      · simp only [List.mem_singleton] at hev
        subst hev
        exact ⟨rfl, rfl⟩
      · split at hev <;>
          (simp only [List.mem_cons, List.not_mem_nil, or_false] at hev;
           rcases hev with rfl | rfl | rfl <;> exact ⟨rfl, rfl⟩)
    · simp at hev

/-- C6: the session classification is a pure function of the
`XDG_SESSION_TYPE` value, selecting the X11 path exactly on a
case-insensitive match with "x11" and the compatibility-shim path for
every other value, including the empty (unset) value and unrecognized
values such as "wayland" and "unknown". -/
theorem isX11_classification :
    isX11 "x11" = true ∧ isX11 "X11" = true ∧ isX11 "" = false ∧
    isX11 "wayland" = false ∧ isX11 "unknown" = false ∧
    ∀ s : String, isX11 s = true ↔ goToLower s = goToLower "x11" := by
  refine ⟨by decide, by decide, by decide, by decide, by decide, ?_⟩
  intro s
  have h : goToLower "x11" = "x11" := by decide
  rw [h]
  simp [isX11]

/-- C8: the title predicate of `Action.Execute` is
`strings.Contains(title, "VSC")`: it is false on the empty title, true
exactly when `"VSC"` occurs case-sensitively as a contiguous substring of
the title, and when it is false `Execute` returns success with a trace
consisting solely of the window-query events — no clipboard or keystroke
calls. -/
theorem titlePredicate_spec :
    titleMatches "" = false ∧
    (∀ t : String, titleMatches t = true ↔
      ∃ pre post, t.data = pre ++ "VSC".data ++ post) ∧
    (∀ (env : Env) (transcription : String) (w : Window),
      (getFocusedWindow env).1 = .ok w →
      titleMatches w.Title = false →
      execute env transcription = (.ok (), (getFocusedWindow env).2)) := by
  refine ⟨by decide, ?_, ?_⟩
  · intro t
    exact containsAt_iff "VSC".data t.data
  · intro env transcription w hok hnm
    rcases hgw : getFocusedWindow env with ⟨r, evs⟩
    rw [hgw] at hok
    simp only at hok
    subst hok
    simp [execute, hgw, hnm]

theorem titlePredicate_spec_witness :
    execute { baseEnv with windowNameQuery := fun _ => Except.ok "Terminal" } "hi" =
      (.ok (),
        (getFocusedWindow
          { baseEnv with windowNameQuery := fun _ => Except.ok "Terminal" }).2) :=
  titlePredicate_spec.2.2
    { baseEnv with windowNameQuery := fun _ => Except.ok "Terminal" }
    "hi" ⟨"Terminal"⟩ rfl (by decide)

/-- C4: `GetFocusedWindow` performs two sequential queries; if the
active-window query fails, that failure is returned (and the `Except`
error carries no window value); if it succeeds and the window-name query
fails, that failure is returned likewise. -/
theorem getFocusedWindow_error_propagation (env : Env) :
    (∀ e, env.activeWindowQuery = .error e →
      (getFocusedWindow env).1 = .error e) ∧
    (∀ rawID e, env.activeWindowQuery = .ok rawID →
      env.windowNameQuery (goTrim rawID) = .error e →
      (getFocusedWindow env).1 = .error e) := by
  constructor
  · intro e h
    simp [getFocusedWindow, h]
  · intro rawID e h1 h2
    simp [getFocusedWindow, h1, h2]

theorem getFocusedWindow_error_propagation_witness :
    (getFocusedWindow
      { baseEnv with activeWindowQuery := Except.error "no active window" }).1 =
        .error "no active window" ∧
    (getFocusedWindow
      { baseEnv with windowNameQuery := fun _ => Except.error "bad window id" }).1 =
        .error "bad window id" :=
  ⟨(getFocusedWindow_error_propagation
      { baseEnv with activeWindowQuery := Except.error "no active window" }).1
      "no active window" rfl,
   (getFocusedWindow_error_propagation
      { baseEnv with windowNameQuery := fun _ => Except.error "bad window id" }).2
      "42\n" "bad window id" rfl rfl⟩

/-- C5: when `CopyToClipboard` fails, `PasteWithReturn` returns that very
error and its trace contains no key-synthesis operation on any platform
path (no `robotgo.KeyTap` and no `xdotool key` invocation). -/
theorem pasteWithReturn_aborts_on_copy_failure (env : Env) (text : String)
    (e : String) (h : (copyToClipboard env text).1 = .err e) :
    (pasteWithReturn env text).1 = .err e ∧
    ∀ ev ∈ (pasteWithReturn env text).2, isKeySynthesis ev = false := by
  rcases hc : copyToClipboard env text with ⟨r, evs⟩
  rw [hc] at h
  simp only at h
  subst h
  have htr : ∀ ev ∈ evs, isKeySynthesis ev = false := by
    intro ev hev
    exact (copyToClipboard_trace_effects env text ev (by rw [hc]; exact hev)).1
  constructor
  · simp [pasteWithReturn, hc]
  · intro ev hev
    rw [show pasteWithReturn env text = (.err e, evs) by simp [pasteWithReturn, hc]]
      at hev
    exact htr ev hev

theorem pasteWithReturn_aborts_witness :
    (pasteWithReturn { baseEnv with lookPathXclip := false } "hello").1 =
      .err "xclip is not installed" ∧
    ∀ ev ∈ (pasteWithReturn { baseEnv with lookPathXclip := false } "hello").2,
      isKeySynthesis ev = false :=
  pasteWithReturn_aborts_on_copy_failure
    { baseEnv with lookPathXclip := false } "hello"
    "xclip is not installed" (by decide)

/-- C7: in a successful `PasteWithReturn` call the X11 path appends the
paste `KeyTap` immediately followed by the Enter `KeyTap` with no sleep
anywhere in the trace, while the compatibility-shim path appends the
`xdotool` paste, a 50 ms sleep, and the `xdotool` Return; on both paths
the paste precedes Enter, and the shim delay is a non-zero number of tens
of milliseconds. -/
theorem pasteWithReturn_synthesis_ordering (env : Env) (text : String) :
    (isX11 env.xdgSessionType = true →
      (copyToClipboard env text).1 = .ok () →
      (pasteWithReturn env text).2 =
        (copyToClipboard env text).2 ++
          [.keyTap "v" ["ctrl"], .keyTap "enter" []] ∧
      ∀ ev ∈ (pasteWithReturn env text).2, isSleep ev = false) ∧
    (isX11 env.xdgSessionType = false →
      (pasteWithReturn env text).1 = .ok () →
      (pasteWithReturn env text).2 =
        (copyToClipboard env text).2 ++
          [.runCmd "xdotool" ["key", "ctrl+v"] none, .sleepMs 50,
           .runCmd "xdotool" ["key", "Return"] none] ∧
      (50 : Nat) ≠ 0 ∧ (10 : Nat) ≤ 50 ∧ (50 : Nat) < 100) := by
  constructor
  · intro hx hok
    rcases hc : copyToClipboard env text with ⟨r, evs⟩
    rw [hc] at hok
    simp only at hok
    subst hok
    have hpr : pasteWithReturn env text =
        (.ok (), evs ++ [.keyTap "v" ["ctrl"], .keyTap "enter" []]) := by
      simp [pasteWithReturn, hc, hx]
    refine ⟨by simp [hpr, hc], ?_⟩
    intro ev hev
    rw [hpr] at hev
    simp only [List.mem_append] at hev
    rcases hev with hev | hev
    · exact (copyToClipboard_trace_effects env text ev (by rw [hc]; exact hev)).2
    · simp only [List.mem_cons, List.not_mem_nil, or_false] at hev
      rcases hev with rfl | rfl <;> rfl
  · intro hx hok
    rcases hc : copyToClipboard env text with ⟨r, evs⟩
    cases r with
    | err e =>
      rw [show pasteWithReturn env text = (.err e, evs) from
        by simp [pasteWithReturn, hc]] at hok
      simp at hok
    | panicked m =>
      rw [show pasteWithReturn env text = (.panicked m, evs) from
        by simp [pasteWithReturn, hc]] at hok
      simp at hok
    | ok u =>
      cases u
      cases hp : env.xdotoolPasteRun with
      | some e =>
        rw [show pasteWithReturn env text =
            (.err ("failed to paste: " ++ e),
              evs ++ [.runCmd "xdotool" ["key", "ctrl+v"] none]) from
          by simp [pasteWithReturn, hc, hx, hp]] at hok
        simp at hok
      | none =>
        cases hr : env.xdotoolReturnRun with
        | some e =>
          rw [show pasteWithReturn env text =
              (.err ("failed to press enter: " ++ e),
                evs ++ [.runCmd "xdotool" ["key", "ctrl+v"] none,
                        .sleepMs 50,
                        .runCmd "xdotool" ["key", "Return"] none]) from
            by simp [pasteWithReturn, hc, hx, hp, hr]] at hok
          simp at hok
        | none =>
          refine ⟨?_, by decide, by decide, by decide⟩
          have hpw : pasteWithReturn env text =
              (.ok (), evs ++ [.runCmd "xdotool" ["key", "ctrl+v"] none,
                               .sleepMs 50,
                               .runCmd "xdotool" ["key", "Return"] none]) := by
            simp [pasteWithReturn, hc, hx, hp, hr]
          simp [hpw, hc]

theorem pasteWithReturn_synthesis_ordering_witness :
    ((pasteWithReturn baseEnv "hi").2 =
      (copyToClipboard baseEnv "hi").2 ++
        [.keyTap "v" ["ctrl"], .keyTap "enter" []] ∧
     ∀ ev ∈ (pasteWithReturn baseEnv "hi").2, isSleep ev = false) ∧
    ((pasteWithReturn { baseEnv with xdgSessionType := "wayland" } "hi").2 =
      (copyToClipboard { baseEnv with xdgSessionType := "wayland" } "hi").2 ++
        [.runCmd "xdotool" ["key", "ctrl+v"] none, .sleepMs 50,
         .runCmd "xdotool" ["key", "Return"] none] ∧
     (50 : Nat) ≠ 0 ∧ (10 : Nat) ≤ 50 ∧ (50 : Nat) < 100) :=
  ⟨(pasteWithReturn_synthesis_ordering baseEnv "hi").1 (by decide) (by decide),
   (pasteWithReturn_synthesis_ordering
      { baseEnv with xdgSessionType := "wayland" } "hi").2 (by decide) (by decide)⟩

/-- C9: on linux, `CopyToClipboard` first checks `exec.LookPath("xclip")`;
when the binary is absent the call returns the descriptive error
"xclip is not installed" at once, its whole trace being the failed lookup
— no helper process is run and no payload is written. -/
theorem copyToClipboard_failfast_no_xclip (env : Env) (text : String)
    (hos : env.goos = "linux") (hlp : env.lookPathXclip = false) :
    copyToClipboard env text =
      (.err "xclip is not installed", [.lookPath "xclip" false]) := by
  unfold copyToClipboard
  rw [hos]
  simp [hlp]

theorem copyToClipboard_failfast_witness :
    copyToClipboard { baseEnv with lookPathXclip := false } "payload" =
      (.err "xclip is not installed", [.lookPath "xclip" false]) :=
  copyToClipboard_failfast_no_xclip
    { baseEnv with lookPathXclip := false } "payload" rfl rfl

/-- C10: when `runtime.GOOS` is neither "darwin" nor "linux" the platform
switch leaves `cmd` nil and `cmd.Run()` dereferences the nil pointer:
`CopyToClipboard` panics having performed no effect, and in particular
never returns an error value. -/
theorem copyToClipboard_panics_on_unsupported_os (env : Env) (text : String)
    (h1 : env.goos ≠ "darwin") (h2 : env.goos ≠ "linux") :
    copyToClipboard env text = (.panicked nilDerefMsg, []) ∧
    ∀ e, (copyToClipboard env text).1 ≠ .err e := by
  have hm : copyToClipboard env text = (.panicked nilDerefMsg, []) := by
    unfold copyToClipboard
    rw [if_neg h1, if_neg h2]
  refine ⟨hm, ?_⟩
  intro e h
  rw [hm] at h
  simp at h

theorem copyToClipboard_panics_witness :
    copyToClipboard { baseEnv with goos := "windows" } "hello" =
      (.panicked nilDerefMsg, []) ∧
    ∀ e, (copyToClipboard { baseEnv with goos := "windows" } "hello").1 ≠ .err e :=
  copyToClipboard_panics_on_unsupported_os
    { baseEnv with goos := "windows" } "hello" (by decide) (by decide)

/-- C2 (refutation at a concrete input): on the darwin path
`CopyToClipboard` never passes the payload to the clipboard utility: for
every payload the whole observable behavior is one `pbcopy` invocation
with no standard input configured (the child reads the null device), and
the call reports success.  The text therefore never reaches `pbcopy`,
contradicting the claim and the function's own doc comment
("copies text to the clipboard"). -/
theorem copyToClipboard_darwin_ignores_text :
    copyToClipboard { baseEnv with goos := "darwin" } "hello" =
      (.ok (), [.runCmd "pbcopy" [] none]) ∧
    (∀ t : String, copyToClipboard { baseEnv with goos := "darwin" } t =
      (.ok (), [.runCmd "pbcopy" [] none])) ∧
    ∀ ev ∈ (copyToClipboard { baseEnv with goos := "darwin" } "hello").2,
      ev ≠ .runCmd "pbcopy" [] (some "hello") ∧
      ev ≠ .pipeWrite "hello" none := by
  exact ⟨rfl, fun t => rfl, by decide⟩

/-- C1 counterexample: with the focused window titled "main.go - VSCode"
and `xclip` missing, the injection step fails (`PasteWithReturn` returns
the clipboard error) yet `Execute` returns success: the injection
failure is not propagated to `Execute`'s caller, refuting the claim that
a predicate mismatch is the only way `Execute` succeeds without having
injected. -/
theorem execute_swallows_injection_error :
    (pasteWithReturn { baseEnv with lookPathXclip := false } "dictated text").1 =
      .err "xclip is not installed" ∧
    (execute { baseEnv with lookPathXclip := false } "dictated text").1 =
      .ok () :=
  ⟨rfl, rfl⟩

/-- C1 amended: when the focused-window query succeeds and the title
predicate matches, `Execute` discards `PasteWithReturn`'s error and
returns success regardless; the focused-window query failure is the only
error `Execute` propagates, so `Execute` can also return success having
performed no injection when the injection itself failed. -/
theorem execute_discards_injection_failure (env : Env) (t : String)
    (w : Window) (e : String)
    (hw : (getFocusedWindow env).1 = .ok w)
    (hm : titleMatches w.Title = true)
    (he : (pasteWithReturn env t).1 = .err e) :
    (execute env t).1 = .ok () := by
  rcases hgw : getFocusedWindow env with ⟨r, evs⟩
  rw [hgw] at hw
  simp only at hw
  subst hw
  rcases hp : pasteWithReturn env t with ⟨r2, evs2⟩
  rw [hp] at he
  simp only at he
  subst he
  simp [execute, hgw, hm, hp]

theorem execute_discards_injection_failure_witness :
    (execute { baseEnv with xclipRun := some "exit status 1" } "dictated").1 =
      .ok () :=
  execute_discards_injection_failure
    { baseEnv with xclipRun := some "exit status 1" } "dictated"
    ⟨"main.go - VSCode"⟩ "exit status 1" rfl (by decide) rfl

/-- C3 counterexample: the worker task's write into the helper's input
fails ("short write") while the helper process itself exits successfully;
`CopyToClipboard` nevertheless returns success, refuting the claim that a
failed or short write by the worker is surfaced like a non-zero helper
exit. -/
theorem copyToClipboard_ignores_worker_write_failure :
    (copyToClipboard
      { baseEnv with workerWrite := some "short write" } "payload text").1 =
      .ok () ∧
    Event.pipeWrite "payload text" (some "short write") ∈
      (copyToClipboard
        { baseEnv with workerWrite := some "short write" } "payload text").2 :=
  ⟨rfl, by decide⟩

/-- C3 amended: on the linux path with `xclip` available the call returns
only after both the worker's write and the helper's execution are
complete (both are in the returned trace, the write before the helper's
exit), and the result is exactly the helper process's exit outcome — a
non-zero helper exit is surfaced as an error, while the outcome of the
worker's write is ignored, never surfaced. -/
theorem copyToClipboard_linux_join (env : Env) (text : String)
    (hos : env.goos = "linux") (hlp : env.lookPathXclip = true) :
    (copyToClipboard env text).2 =
      [.lookPath "xclip" true, .pipeWrite text env.workerWrite,
       .runCmd "xclip" ["-selection", "clipboard"] (some text)] ∧
    (copyToClipboard env text).1 =
      (match env.xclipRun with
       | none => .ok ()
       | some e => .err e) := by
  unfold copyToClipboard
  rw [hos]
  cases hxr : env.xclipRun with
  | none => simp [hlp, hxr]
  | some e => simp [hlp, hxr]

theorem copyToClipboard_linux_join_witness :
    (copyToClipboard
      { baseEnv with xclipRun := some "exit status 1",
                     workerWrite := some "broken pipe" } "hi").2 =
      [.lookPath "xclip" true, .pipeWrite "hi" (some "broken pipe"),
       .runCmd "xclip" ["-selection", "clipboard"] (some "hi")] ∧
    (copyToClipboard
      { baseEnv with xclipRun := some "exit status 1",
                     workerWrite := some "broken pipe" } "hi").1 =
      .err "exit status 1" :=
  copyToClipboard_linux_join
    { baseEnv with xclipRun := some "exit status 1",
                   workerWrite := some "broken pipe" } "hi" rfl rfl
